import Mathlib

/-!
Verification of the VMagic subprocess-orchestration core (src-tauri/src).

Conventions of the embedding:
* Rust `f64` values are modelled as exact rationals (`ℚ`); floating-point
  rounding is outside the model, which follows the arithmetic structure of
  the source expressions.
* Rust `Result<T, String>` is modelled as `Except String T`.
* External collaborators (the spawned ffmpeg / rife processes, the ffprobe
  probe, the filesystem) are modelled by explicit environment records
  describing the outcome of each external call; the control flow of the
  Rust functions over those outcomes is translated statement by statement.
* The `regex` crate is an external collaborator: the capture results of the
  four fixed progress patterns are carried on each modelled stdout line.
-/

namespace VMagic

/-! ## validation.rs -/

/-- Constant `DURATION_TOLERANCE` from validation.rs: ±0.1 seconds. -/
def DURATION_TOLERANCE : ℚ := 0.1

/-- Function `validate_duration` from validation.rs: returns `(is_valid, difference)`
where `diff = output - input` and `is_valid = |diff| ≤ DURATION_TOLERANCE`. -/
def validate_duration (input_duration output_duration : ℚ) : Bool × ℚ :=
  let diff := output_duration - input_duration
  (decide (|diff| ≤ DURATION_TOLERANCE), diff)

/-! ## ffmpeg.rs: `parse_frame_rate` and its `str::parse::<f64>` collaborator -/

/-- Digit list to natural number, most significant first. -/
def digits_to_nat (l : List Char) : ℕ :=
  l.foldl (fun acc c => 10 * acc + (c.toNat - 48)) 0

/-- Split a character list at the first `'.'`; second component is `none`
when no dot occurs. -/
def split_dot : List Char → List Char × Option (List Char)
  | [] => ([], none)
  | c :: rest =>
    if c = '.' then ([], some rest)
    else
      let r := split_dot rest
      (c :: r.1, r.2)

/-- Modelled from Rust `str::parse::<f64>` restricted to plain decimal
numerals (`Digit+ ('.' Digit*)?` or `Digit* '.' Digit+`), the forms the
probe ever produces; exponent, `inf` and `nan` forms are outside the model.
Unsigned part. -/
def parse_f64_core (chars : List Char) : Option ℚ :=
  match split_dot chars with
  | (ip, none) =>
    if ip.all Char.isDigit && !ip.isEmpty then some ((digits_to_nat ip : ℚ))
    else none
  | (ip, some fp) =>
    if ip.all Char.isDigit && fp.all Char.isDigit && (!ip.isEmpty || !fp.isEmpty) then
      some ((digits_to_nat ip : ℚ) + (digits_to_nat fp : ℚ) / 10 ^ fp.length)
    else none

/-- Modelled from Rust `str::parse::<f64>`: optional sign then a plain
decimal numeral. -/
def parse_f64 (chars : List Char) : Option ℚ :=
  match chars with
  | [] => none
  | c :: rest =>
    if c = '-' then (parse_f64_core rest).map (fun q => -q)
    else if c = '+' then parse_f64_core rest
    else parse_f64_core (c :: rest)

/-- Rust `str::split(char)` on character lists: splitting `"a/b"` at `'/'`
gives `["a", "b"]`, `"/"` gives `["", ""]`. -/
def split_on_char (sep : Char) : List Char → List (List Char)
  | [] => [[]]
  | c :: rest =>
    match split_on_char sep rest with
    | [] => [[]]
    | g :: gs => if c = sep then [] :: g :: gs else (c :: g) :: gs

/-- Function `parse_frame_rate` from ffmpeg.rs: a string containing `'/'` that splits
into exactly two parts is read as a rational `num/den` with
`num = parts[0].parse().unwrap_or(0.0)`, `den = parts[1].parse().unwrap_or(1.0)`,
returned as `num / den` when `den > 0`; every other case falls through to
`fps_str.parse().unwrap_or(0.0)`. -/
def parse_frame_rate (fps_str : String) : ℚ :=
  let viaFraction : Option ℚ :=
    if fps_str.data.contains '/' then
      match split_on_char '/' fps_str.data with
      | [p0, p1] =>
        let num : ℚ := (parse_f64 p0).getD 0
        let den : ℚ := (parse_f64 p1).getD 1
        if 0 < den then some (num / den) else none
      | _ => none
    else none
  viaFraction.getD ((parse_f64 fps_str.data).getD 0)

/-! ## ffmpeg.rs: RIFE interpolation multiplier (`convert_video_rife`) -/

/-- Rust `as u32` applied to an integral `f64` value: the cast saturates,
clamping negatives to `0` and values above `u32::MAX` to `u32::MAX`. -/
def as_u32 (z : ℤ) : ℕ := min z.toNat (2 ^ 32 - 1)

/-- Rust `u32::next_power_of_two` in release mode: the least power of two
greater than or equal to the argument (`1` for arguments `≤ 1`) while that
power fits in a `u32`, i.e. for arguments `≤ 2^31`; for larger arguments
the computation overflows and the result wraps to `0` (debug builds would
panic instead). -/
def next_power_of_two (n : ℕ) : ℕ :=
  if n ≤ 2 ^ 31 then 2 ^ Nat.clog 2 n else 0

/-- The multiplier computation of `convert_video_rife`:
`multiplier = (target_fps / input_fps).ceil() as u32` (saturating cast)
followed by `multiplier.next_power_of_two().max(2)` with release-mode
overflow semantics. -/
def rife_multiplier (input_fps target_fps : ℚ) : ℕ :=
  let multiplier : ℕ := as_u32 ⌈target_fps / input_fps⌉
  max (next_power_of_two multiplier) 2

/-! ## Helper lemmas about the decimal parser -/

/-- A character other than `'.'` that occurs in the input survives into one
of the two components produced by `split_dot`. -/
lemma mem_split_dot {c : Char} (hdot : c ≠ '.') :
    ∀ l : List Char, c ∈ l →
      c ∈ (split_dot l).1 ∨ ∃ fp, (split_dot l).2 = some fp ∧ c ∈ fp := by
  intro l
  induction l with
  | nil => intro h; cases h
  | cons x rest ih =>
    intro hmem
    by_cases hx : x = '.'
    · subst hx
      rcases List.mem_cons.mp hmem with h | h
      · exact absurd h hdot
      · exact Or.inr ⟨rest, by simp [split_dot], h⟩
    · rcases List.mem_cons.mp hmem with h | h
      · subst h
        exact Or.inl (by simp [split_dot, hx])
      · rcases ih h with h1 | ⟨fp, h2, h3⟩
        · exact Or.inl (by simp [split_dot, hx, h1])
        · exact Or.inr ⟨fp, by simp [split_dot, hx, h2], h3⟩

/-- A list containing a character that is neither a digit nor `'.'` is not a
decimal numeral. -/
lemma parse_f64_core_of_bad_char {c : Char} (hd : c.isDigit = false)
    (hdot : c ≠ '.') (l : List Char) (hmem : c ∈ l) :
    parse_f64_core l = none := by
  rcases hsd : split_dot l with ⟨ip, fp?⟩
  rcases mem_split_dot hdot l hmem with h | ⟨fp, h2, h3⟩
  · rw [hsd] at h
    have hall : ip.all Char.isDigit = false := by
      rw [Bool.eq_false_iff]
      intro hall
      exact absurd ((List.all_eq_true.mp hall) c h) (by simp [hd])
    cases fp? with
    | none => simp [parse_f64_core, hsd, hall]
    | some fp => simp [parse_f64_core, hsd, hall]
  · rw [hsd] at h2
    subst h2
    have hall : fp.all Char.isDigit = false := by
      rw [Bool.eq_false_iff]
      intro hall
      exact absurd ((List.all_eq_true.mp hall) c h3) (by simp [hd])
    simp [parse_f64_core, hsd, hall]

/-- A string containing `'/'` never parses as a plain decimal. -/
lemma parse_f64_of_mem_slash : ∀ l : List Char, '/' ∈ l → parse_f64 l = none := by
  intro l hmem
  have hd : ('/').isDigit = false := by decide
  have hdot : ('/') ≠ '.' := by decide
  cases l with
  | nil => cases hmem
  | cons c rest =>
    by_cases hneg : c = '-'
    · subst hneg
      have h2 : '/' ∈ rest := by
        rcases List.mem_cons.mp hmem with h | h
        · exact absurd h.symm (by decide)
        · exact h
      simp [parse_f64, parse_f64_core_of_bad_char hd hdot rest h2]
    · by_cases hpos : c = '+'
      · subst hpos
        have h2 : '/' ∈ rest := by
          rcases List.mem_cons.mp hmem with h | h
          · exact absurd h.symm (by decide)
          · exact h
        simp [parse_f64, hneg, parse_f64_core_of_bad_char hd hdot rest h2]
      · simp [parse_f64, hneg, hpos,
          parse_f64_core_of_bad_char hd hdot (c :: rest) hmem]

/-! ## Claim C4 -/

/-- Claim C4: for every pair of durations, `validate_duration` returns
`is_valid = true` if and only if `|output - input| ≤ 0.1` (boundary
inclusive), and returns the difference `output - input` alongside the
validity flag. -/
theorem validate_duration_spec (input_duration output_duration : ℚ) :
    ((validate_duration input_duration output_duration).1 = true ↔
      |output_duration - input_duration| ≤ 0.1) ∧
    (validate_duration input_duration output_duration).2 =
      output_duration - input_duration := by
  constructor
  · simp [validate_duration, DURATION_TOLERANCE]
  · rfl

/-! ## Claim C7 -/

/-- Claim C7: a plain decimal (no `'/'`) parses to its value; an `"N/D"`
rational whose denominator parses to a positive value parses to `N/D`;
when the denominator parses to a non-positive value (in particular `D = 0`)
the function falls back to the whole-string parse, which fails on any
string containing `'/'`, so it yields `0`; a string that is not a decimal
and has no `'/'` yields `0`; together with the four concrete examples of
the specification. -/
theorem parse_frame_rate_spec :
    (∀ (s : String) (q : ℚ), s.data.contains '/' = false →
      parse_f64 s.data = some q → parse_frame_rate s = q) ∧
    (∀ s : String, s.data.contains '/' = false →
      parse_f64 s.data = none → parse_frame_rate s = 0) ∧
    (∀ (s : String) (p0 p1 : List Char) (n d : ℚ), s.data.contains '/' = true →
      split_on_char '/' s.data = [p0, p1] → parse_f64 p0 = some n →
      parse_f64 p1 = some d → 0 < d → parse_frame_rate s = n / d) ∧
    (∀ (s : String) (p0 p1 : List Char) (d : ℚ), s.data.contains '/' = true →
      split_on_char '/' s.data = [p0, p1] →
      parse_f64 p1 = some d → ¬ 0 < d → parse_frame_rate s = 0) ∧
    parse_frame_rate "30000/1001" = 30000 / 1001 ∧
    parse_frame_rate "30" = 30 ∧
    parse_frame_rate "30/0" = 0 ∧
    parse_frame_rate "" = 0 := by
  refine ⟨?_, ?_, ?_, ?_, rfl, rfl, rfl, rfl⟩
  · intro s q hc hp
    have hc' : ('/') ∉ s.data := by simpa using hc
    simp [parse_frame_rate, hc', hp]
  · intro s hc hp
    have hc' : ('/') ∉ s.data := by simpa using hc
    simp [parse_frame_rate, hc', hp]
  · intro s p0 p1 n d hc hsplit hp0 hp1 hd
    have hc' : ('/') ∈ s.data := by simpa using hc
    simp [parse_frame_rate, hc', hsplit, hp0, hp1, hd]
  · intro s p0 p1 d hc hsplit hp1 hd
    have hc' : ('/') ∈ s.data := by simpa using hc
    have hnone : parse_f64 s.data = none := parse_f64_of_mem_slash s.data hc'
    simp [parse_frame_rate, hc', hsplit, hp1, hd, hnone]

/-- Witness for C7: the plain-decimal clause applied at `"24"`. -/
theorem parse_frame_rate_spec_witness : parse_frame_rate "24" = 24 :=
  parse_frame_rate_spec.1 "24" 24 (by decide) rfl

/-! ## Claim C10 -/

/-- Claim C10: for an `"N/D"` input whose numerator parses but whose
denominator fails to parse (for example `"30/abc"`), the denominator is
defaulted to `1` and `parse_frame_rate` returns `N`, not `0`. -/
theorem parse_frame_rate_denominator_default :
    (∀ (s : String) (p0 p1 : List Char) (n : ℚ), s.data.contains '/' = true →
      split_on_char '/' s.data = [p0, p1] → parse_f64 p0 = some n →
      parse_f64 p1 = none → parse_frame_rate s = n) ∧
    parse_frame_rate "30/abc" = 30 := by
  constructor
  · intro s p0 p1 n hc hsplit hp0 hp1
    have hc' : ('/') ∈ s.data := by simpa using hc
    simp [parse_frame_rate, hc', hsplit, hp0, hp1]
  · have h : parse_frame_rate "30/abc" = (30 : ℚ) / 1 := rfl
    rw [h]
    norm_num

/-- Witness for C10: the denominator-default clause applied at `"16/x"`. -/
theorem parse_frame_rate_denominator_default_witness :
    parse_frame_rate "16/x" = 16 :=
  parse_frame_rate_denominator_default.1 "16/x" "16".data "x".data 16
    (by decide) (by decide) rfl rfl

/-! ## Claim C6 -/

/-- Counterexample to C6 as stated: at `input_fps = 1`,
`target_fps = 2^31 + 1` the ceiling of the ratio is `2147483649 > 2^31`, so
`u32::next_power_of_two` wraps to `0` in release mode and the program's
multiplier collapses to the floor `2`, which is far below the smallest
power of two greater than or equal to the ceiling. -/
theorem rife_multiplier_overflow_counterexample :
    ⌈(2147483649 : ℚ) / 1⌉ = 2147483649 ∧
    rife_multiplier 1 2147483649 = 2 ∧
    ¬ ((2147483649 : ℕ) ≤ 2) := by
  have hc : ⌈(2147483649 : ℚ) / 1⌉ = (2147483649 : ℤ) := by
    rw [div_one]
    rw [show ((2147483649 : ℚ)) = ((2147483649 : ℤ) : ℚ) by norm_num]
    exact Int.ceil_intCast _
  refine ⟨hc, ?_, by decide⟩
  show max (next_power_of_two (as_u32 ⌈(2147483649 : ℚ) / 1⌉)) 2 = 2
  rw [hc]
  decide

/-- Claim C6 (amended): for positive input and target frame rates whose
ratio has ceiling at most `2^31` (the domain on which
`u32::next_power_of_two` does not overflow), the RIFE multiplier is the
smallest power of two greater than or equal to
`ceil(target_fps / input_fps)`, floored at a minimum of 2: a power of two,
at least the ceiling, at least 2, and no larger than any power of two
satisfying those two bounds. For ratios with ceiling above `2^31` the
saturating cast and the release-mode wrap of `u32::next_power_of_two`
collapse the multiplier to `2`. -/
theorem rife_multiplier_spec (input_fps target_fps : ℚ)
    (hi : 0 < input_fps) (ht : 0 < target_fps) :
    ((Int.toNat ⌈target_fps / input_fps⌉) ≤ 2 ^ 31 →
      (∃ k, rife_multiplier input_fps target_fps = 2 ^ k) ∧
      (Int.toNat ⌈target_fps / input_fps⌉) ≤ rife_multiplier input_fps target_fps ∧
      2 ≤ rife_multiplier input_fps target_fps ∧
      (∀ j : ℕ, (Int.toNat ⌈target_fps / input_fps⌉) ≤ 2 ^ j → 2 ≤ 2 ^ j →
        rife_multiplier input_fps target_fps ≤ 2 ^ j)) ∧
    (2 ^ 31 < (Int.toNat ⌈target_fps / input_fps⌉) →
      rife_multiplier input_fps target_fps = 2) := by
  have h2 : (1 : ℕ) < 2 := by norm_num
  set m : ℕ := Int.toNat ⌈target_fps / input_fps⌉ with hm
  constructor
  · intro hfit
    have hcast : as_u32 ⌈target_fps / input_fps⌉ = m := by
      unfold as_u32
      exact min_eq_left (le_trans hfit (by norm_num))
    have hnpt : next_power_of_two m = 2 ^ Nat.clog 2 m := by
      unfold next_power_of_two
      rw [if_pos hfit]
    have hdef : rife_multiplier input_fps target_fps =
        max (2 ^ Nat.clog 2 m) 2 := by
      show max (next_power_of_two (as_u32 ⌈target_fps / input_fps⌉)) 2 = _
      rw [hcast, hnpt]
    refine ⟨?_, ?_, ?_, ?_⟩
    · rcases Nat.eq_zero_or_pos (Nat.clog 2 m) with hc | hc
      · exact ⟨1, by rw [hdef, hc]; decide⟩
      · refine ⟨Nat.clog 2 m, ?_⟩
        rw [hdef]
        have : (2 : ℕ) ≤ 2 ^ Nat.clog 2 m := by
          calc (2 : ℕ) = 2 ^ 1 := by norm_num
          _ ≤ 2 ^ Nat.clog 2 m := Nat.pow_le_pow_right (by norm_num) hc
        exact max_eq_left this
    · rw [hdef]
      exact le_trans (Nat.le_pow_clog h2 m) (le_max_left _ _)
    · rw [hdef]
      exact le_max_right _ _
    · intro j hj h2j
      rw [hdef]
      refine max_le ?_ h2j
      exact Nat.pow_le_pow_right (by norm_num)
        ((Nat.le_pow_iff_clog_le h2).mp hj)
  · intro hbig
    have hgt : 2 ^ 31 < as_u32 ⌈target_fps / input_fps⌉ := by
      unfold as_u32
      exact lt_min hbig (by norm_num)
    have hnpt : next_power_of_two (as_u32 ⌈target_fps / input_fps⌉) = 0 := by
      unfold next_power_of_two
      rw [if_neg (not_le.mpr hgt)]
    show max (next_power_of_two (as_u32 ⌈target_fps / input_fps⌉)) 2 = 2
    rw [hnpt]
    decide

/-- Witness for C6: the specification of the multiplier at the two concrete
pairs of the specification, `24 → 60` fps (multiplier 4) and `30 → 30` fps
(multiplier 2), both inside the non-overflowing domain. -/
theorem rife_multiplier_spec_witness :
    2 ≤ rife_multiplier 24 60 ∧ rife_multiplier 24 60 = 4 ∧
    rife_multiplier 30 30 = 2 := by
  have h60 : ⌈(60 : ℚ) / 24⌉ = 3 := by rw [Int.ceil_eq_iff]; norm_num
  have h30 : ⌈(30 : ℚ) / 30⌉ = 1 := by rw [Int.ceil_eq_iff]; norm_num
  refine ⟨((rife_multiplier_spec 24 60 (by norm_num) (by norm_num)).1
    (by rw [h60]; decide)).2.2.1, ?_, ?_⟩
  · show max (next_power_of_two (as_u32 ⌈(60 : ℚ) / 24⌉)) 2 = 4
    rw [h60]
    show max (next_power_of_two (as_u32 (3 : ℤ))) 2 = 4
    have hcast : as_u32 (3 : ℤ) = 3 := by decide
    rw [hcast]
    have hnpt : next_power_of_two 3 = 2 ^ Nat.clog 2 3 := by
      unfold next_power_of_two
      rw [if_pos (by norm_num : (3 : ℕ) ≤ 2 ^ 31)]
    have hclog : Nat.clog 2 3 = 2 := by simp [Nat.clog]
    rw [hnpt, hclog]
    decide
  · show max (next_power_of_two (as_u32 ⌈(30 : ℚ) / 30⌉)) 2 = 2
    rw [h30]
    show max (next_power_of_two (as_u32 (1 : ℤ))) 2 = 2
    have hcast : as_u32 (1 : ℤ) = 1 := by decide
    rw [hcast]
    have hnpt : next_power_of_two 1 = 2 ^ Nat.clog 2 1 := by
      unfold next_power_of_two
      rw [if_pos (by norm_num : (1 : ℕ) ≤ 2 ^ 31)]
    have hclog : Nat.clog 2 1 = 0 := by simp [Nat.clog]
    rw [hnpt, hclog]
    decide

/-! ## commands.rs: job state guard (`ConversionState`) -/

/-- Structure `ConversionState` from commands.rs: the shared cancellation flag and the
`is_converting` mutual-exclusion flag. The `Arc<AtomicBool>` / `Mutex<bool>`
wrappers provide atomic access; the state itself is the two booleans. -/
structure ConversionState where
  cancel_flag : Bool
  is_converting : Bool
deriving DecidableEq

/-- The guard-acquisition critical section shared verbatim by the four
job-initiating commands (`convert_video`, `upscale_video`, `compress_video`,
`process_audio`): under the `is_converting` lock, an active job makes the
command return `Err("変換処理が既に実行中です")` with the state untouched;
otherwise `is_converting` is set and the cancel flag is reset to `false`. -/
def try_begin_job (s : ConversionState) : Except String Unit × ConversionState :=
  if s.is_converting then (Except.error "変換処理が既に実行中です", s)
  else (Except.ok (), { cancel_flag := false, is_converting := true })

/-- The `*converting = false` reset each command performs once its
conversion job has returned, before the job's result is inspected. The
input-probe `?` early returns happen before the job runs and bypass this
reset (see `command_guard_flow`). -/
def end_job (s : ConversionState) : ConversionState :=
  { s with is_converting := false }

/-- Command `cancel_conversion` from commands.rs: sets the shared cancel flag. -/
def cancel_conversion (s : ConversionState) : ConversionState :=
  { s with cancel_flag := true }

/-- The guard lifecycle of one job-initiating command (commands.rs: the
identical blocks of `convert_video`, `upscale_video`, `compress_video` and
`process_audio`): acquire the guard and reset the cancel flag under the
lock; then probe the input with `get_video_info(...).await?` (or
`get_audio_info(...).await?`) — a probe failure returns at once, leaving
`is_converting` set; otherwise run the job, whose result is abstract here,
and reset `is_converting` unconditionally before the result is inspected. -/
def command_guard_flow (s : ConversionState) (input_probe : Except String ℚ)
    (job_result : Except String ℚ) : Except String ℚ × ConversionState :=
  match try_begin_job s with
  | (Except.error e, s1) => (Except.error e, s1)
  | (Except.ok _, s1) =>
    match input_probe with
    | Except.error e => (Except.error e, s1)
    | Except.ok _ => (job_result, end_job s1)

/-! ## commands.rs: cancellation-marker classification of failures -/

/-- Substring check on character lists (Rust `str::contains(&str)`),
prefix test. -/
def starts_with : List Char → List Char → Bool
  | _, [] => true
  | [], _ :: _ => false
  | c :: cs, p :: ps => c = p && starts_with cs ps

/-- Substring check on character lists (Rust `str::contains(&str)`). -/
def contains_sub : List Char → List Char → Bool
  | [], pat => pat.isEmpty
  | c :: rest, pat => starts_with (c :: rest) pat || contains_sub rest pat

/-- Rust `String::contains` on strings. -/
def contains_substr (s pat : String) : Bool :=
  contains_sub s.data pat.data

/-- The cancellation-marker test of the `Err` branch of every
job-initiating command:
`e.contains("cancelled") || e.contains("キャンセル")`. -/
def is_cancel_marker (e : String) : Bool :=
  contains_substr e "cancelled" || contains_substr e "キャンセル"

/-- Structure `ConversionResult` from commands.rs (durations as exact rationals). -/
structure ConversionResult where
  success : Bool
  output_path : String
  input_duration : ℚ
  output_duration : ℚ
  duration_diff : ℚ
  duration_valid : Bool
  message : String
deriving DecidableEq

/-- Structure `AudioProcessingResult` from commands.rs. -/
structure AudioProcessingResult where
  success : Bool
  output_path : String
  input_duration : ℚ
  output_duration : ℚ
  padding_before : ℚ
  padding_after : ℚ
  message : String
deriving DecidableEq

/-- The `Err(e)` branch of `convert_video`: a diagnostic matching the
cancellation marker becomes an `Ok` result with `success = false` and the
fixed message; any other diagnostic is propagated unchanged as `Err(e)`. -/
def convert_video_on_error (output_path : String) (input_duration : ℚ)
    (e : String) : Except String ConversionResult :=
  if is_cancel_marker e then
    Except.ok
      { success := false, output_path := output_path,
        input_duration := input_duration, output_duration := 0,
        duration_diff := 0, duration_valid := false,
        message := "変換がキャンセルされました" }
  else Except.error e

/-- The `Err(e)` branch of `upscale_video` (same classification, its own
fixed message). -/
def upscale_video_on_error (output_path : String) (input_duration : ℚ)
    (e : String) : Except String ConversionResult :=
  if is_cancel_marker e then
    Except.ok
      { success := false, output_path := output_path,
        input_duration := input_duration, output_duration := 0,
        duration_diff := 0, duration_valid := false,
        message := "アップスケールがキャンセルされました" }
  else Except.error e

/-- The `Err(e)` branch of `compress_video`. -/
def compress_video_on_error (output_path : String) (input_duration : ℚ)
    (e : String) : Except String ConversionResult :=
  if is_cancel_marker e then
    Except.ok
      { success := false, output_path := output_path,
        input_duration := input_duration, output_duration := 0,
        duration_diff := 0, duration_valid := false,
        message := "圧縮がキャンセルされました" }
  else Except.error e

/-- The `Err(e)` branch of `process_audio`. -/
def process_audio_on_error (output_path : String) (input_duration : ℚ)
    (padding_before padding_after : ℚ) (e : String) :
    Except String AudioProcessingResult :=
  if is_cancel_marker e then
    Except.ok
      { success := false, output_path := output_path,
        input_duration := input_duration, output_duration := 0,
        padding_before := padding_before, padding_after := padding_after,
        message := "処理がキャンセルされました" }
  else Except.error e

/-! ## ffmpeg.rs: the supervised read loop of `convert_video_minterpolate`

The loop checks the cancel flag at the top of every iteration and then
`select!`s one line from stdout or stderr. A run is modelled by the
sequence of iterations actually offered to the loop: at each iteration the
value the cancel flag would read, and the stream event the `select!` yields.
The capture results of the four fixed regular expressions
(`frame=(\d+)`, `fps=([\d.]+)`, `out_time_ms=(\d+)`, `speed=([\d.x]+)`) on a
stdout line are carried alongside the raw line text (the `regex` crate is an
external collaborator); a failed `parse` inside a capture is already
collapsed to the `unwrap_or` default, exactly as in the source. -/

/-- Regex capture results for one stdout line. `none` = pattern absent. -/
structure LineCaps where
  frameCap : Option ℕ
  fpsCap : Option ℚ
  timeCap : Option ℕ
  speedCap : Option String
deriving DecidableEq

/-- One event produced by the `tokio::select!` between the two readers. -/
inductive StreamEvent where
  | outLine (text : String) (caps : LineCaps)
  | outEof
  | outReadErr
  | errLine (text : String)
  | errEof
  | errReadErr
deriving DecidableEq

/-- The four mutable locals of the read loop. -/
structure LoopState where
  current_frame : ℕ
  current_fps : ℚ
  current_time_ms : ℕ
  current_speed : String
deriving DecidableEq

/-- Initial values of the loop locals. -/
def initLoopState : LoopState :=
  { current_frame := 0, current_fps := 0, current_time_ms := 0,
    current_speed := "" }

/-- The four `if let Some(caps) = …` updates applied to one stdout line. -/
def applyCaps (st : LoopState) (c : LineCaps) : LoopState :=
  { current_frame := c.frameCap.getD st.current_frame,
    current_fps := c.fpsCap.getD st.current_fps,
    current_time_ms := c.timeCap.getD st.current_time_ms,
    current_speed := c.speedCap.getD st.current_speed }

/-- Structure `ProgressEvent` from commands.rs; `time` is the elapsed media time in
seconds (the source renders it as an `HH:MM:SS.ff` string via
`format_time`, a presentation detail outside the model). -/
structure ProgressEvent where
  progress : ℚ
  frame : ℕ
  fps : ℚ
  time : ℚ
  speed : String
deriving DecidableEq

/-- The progress-percentage computation of the read loop:
`current_time_sec = current_time_ms / 1_000_000`, then
`(current_time_sec / input_duration * 100.0).min(100.0)` when
`input_duration > 0.0`, else `0.0`. -/
def progress_percent (current_time_ms : ℕ) (input_duration : ℚ) : ℚ :=
  let current_time_sec : ℚ := (current_time_ms : ℚ) / 1000000
  if 0 < input_duration then min (current_time_sec / input_duration * 100) 100
  else 0

/-- The `ProgressEvent` handed to the progress callback on a
`progress=`-marker line. -/
def mkProgressEvent (st : LoopState) (input_duration : ℚ) : ProgressEvent :=
  { progress := progress_percent st.current_time_ms input_duration,
    frame := st.current_frame,
    fps := st.current_fps,
    time := (st.current_time_ms : ℚ) / 1000000,
    speed := st.current_speed }

/-- Outcome of one supervised run. `cancelled` is the
`Err("変換がキャンセルされました")` return taken after `child.kill()`;
`failed c` is the non-zero-exit return (the source formats the exit code
into its message); `waitError` / `probeError` carry the diagnostics of a
failed `child.wait()` / final `get_video_info` probe. -/
inductive Outcome where
  | success (duration : ℚ)
  | cancelled
  | failed (exitCode : Option Int)
  | waitError (e : String)
  | probeError (e : String)
deriving DecidableEq

/-- What the function does after the read loop exits without cancellation:
wait for the exit status, fail on a non-success status, otherwise probe the
output file for its duration. -/
def afterLoop (waitResult : Except String (Bool × Option Int))
    (probe : Except String ℚ) : Outcome :=
  match waitResult with
  | Except.error e => Outcome.waitError e
  | Except.ok (false, c) => Outcome.failed c
  | Except.ok (true, _) =>
    match probe with
    | Except.error e => Outcome.probeError e
    | Except.ok d => Outcome.success d

/-- Result of a supervised run: the outcome, whether `child.kill()` was
invoked, and the progress events emitted in order. -/
structure RunResult where
  outcome : Outcome
  killed : Bool
  emitted : List ProgressEvent
deriving DecidableEq

/-- Events on which the read loop exits by itself: stdout end-of-stream,
a stdout read error, or a line containing the `progress=end` end marker
(the break sits inside the `progress=` branch; `progress=end` contains
`progress=`, so both containment tests of the source appear). -/
def isBreakEvent : StreamEvent → Bool
  | StreamEvent.outLine text _ =>
    contains_substr text "progress=" && contains_substr text "progress=end"
  | StreamEvent.outEof => true
  | StreamEvent.outReadErr => true
  | _ => false

/-- The read loop of `convert_video_minterpolate` over a run trace. Each
iteration first reads the cancel flag — if set, the child is killed and the
cancelled outcome returned at once — then handles one stream event exactly
as the source's `select!` arms do. An exhausted trace models a quiescent
remainder of the run (the streams close), after which the function waits
for the exit status. -/
def runLoop (input_duration : ℚ) (waitResult : Except String (Bool × Option Int))
    (probe : Except String ℚ) :
    LoopState → List (Bool × StreamEvent) → RunResult
  | _, [] => { outcome := afterLoop waitResult probe, killed := false, emitted := [] }
  | st, (cancel, ev) :: rest =>
    if cancel then { outcome := Outcome.cancelled, killed := true, emitted := [] }
    else
      match ev with
      | StreamEvent.outLine text caps =>
        let st2 := applyCaps st caps
        if contains_substr text "progress=" then
          if contains_substr text "progress=end" then
            { outcome := afterLoop waitResult probe, killed := false,
              emitted := [mkProgressEvent st2 input_duration] }
          else
            let r := runLoop input_duration waitResult probe st2 rest
            { outcome := r.outcome, killed := r.killed,
              emitted := mkProgressEvent st2 input_duration :: r.emitted }
        else runLoop input_duration waitResult probe st2 rest
      | StreamEvent.outEof =>
        { outcome := afterLoop waitResult probe, killed := false, emitted := [] }
      | StreamEvent.outReadErr =>
        { outcome := afterLoop waitResult probe, killed := false, emitted := [] }
      | StreamEvent.errLine _ => runLoop input_duration waitResult probe st rest
      | StreamEvent.errEof => runLoop input_duration waitResult probe st rest
      | StreamEvent.errReadErr => runLoop input_duration waitResult probe st rest

/-! ## ffmpeg.rs: the multi-phase RIFE pipeline (`convert_video_rife`)

The external calls of one pipeline run, in program order, with the
information each decision of the function depends on. `Except.error e`
for a `Command` field means the `output()`/`status()` call itself failed
(the `?` operator propagates it); `Except.ok b` means the process ran and
`b` is its `status.success()`. The audio-extraction side step ignores its
result (`let _ = …`) and creates no exit path, so it has no field. -/
structure RifeEnv where
  create_input_dir : Except String Unit
  create_output_dir : Except String Unit
  extract_run : Except String Bool
  extract_stderr : String
  cancel_after_extract : Bool
  extracted_frames : ℕ
  rife_run : Except String Bool
  rife_stderr : String
  output_frames : ℕ
  cancel_after_rife : Bool
  encode_run : Except String Bool
  probe : Except String ℚ

/-- Function `convert_video_rife` as a function of its external environment: the
returned value (`Ok` duration or `Err` diagnostic, with the source's
messages) paired with whether the `cleanup()` closure
(`fs::remove_dir_all(&temp_dir)`) ran before the return. Statement order
follows the source exactly: extraction, first cancel check, extracted-frame
count, RIFE, output-frame count, second cancel check, encode (cleanup runs
right after a completed encode, before its status is inspected), probe. -/
def convert_video_rife_model (env : RifeEnv) : Except String ℚ × Bool :=
  match env.create_input_dir with
  | Except.error e => (Except.error ("一時ディレクトリ作成エラー: " ++ e), false)
  | Except.ok _ =>
  match env.create_output_dir with
  | Except.error e => (Except.error ("一時ディレクトリ作成エラー: " ++ e), false)
  | Except.ok _ =>
  match env.extract_run with
  | Except.error e => (Except.error ("フレーム抽出エラー: " ++ e), false)
  | Except.ok extract_ok =>
  if !extract_ok then
    (Except.error ("フレーム抽出に失敗しました: " ++ env.extract_stderr), true)
  else if env.cancel_after_extract then
    (Except.error "変換がキャンセルされました", true)
  else if env.extracted_frames = 0 then
    (Except.error "フレームが抽出できませんでした", true)
  else
  match env.rife_run with
  | Except.error e => (Except.error ("RIFE実行エラー: " ++ e), false)
  | Except.ok rife_ok =>
  if !rife_ok then
    (Except.error ("RIFEフレーム補間に失敗しました: " ++ env.rife_stderr), true)
  else if env.output_frames = 0 then
    (Except.error "RIFEがフレームを生成できませんでした", true)
  else if env.cancel_after_rife then
    (Except.error "変換がキャンセルされました", true)
  else
  match env.encode_run with
  | Except.error e => (Except.error ("エンコードエラー: " ++ e), false)
  | Except.ok encode_ok =>
  if !encode_ok then
    (Except.error "動画エンコードに失敗しました", true)
  else
  match env.probe with
  | Except.error e => (Except.error e, true)
  | Except.ok d => (Except.ok d, true)

/-! ## Claim C1 -/

/-- Claim C1 (code bug): the guard rejects a second start while a job is
active with the fixed "already running" error and leaves the state
untouched, and a run whose input probe succeeds releases the guard whatever
the job's outcome (success, failure or cancellation), after which a start
succeeds; but the `?` on the input probe sits between guard acquisition and
the reset, so a command whose input probe fails terminates with
`is_converting` still `true` and every subsequent start attempt —
evaluated here at the concrete failing input — is rejected, contradicting
the claim's "after the first job terminates with any outcome a subsequent
start succeeds". -/
theorem job_guard_stuck_on_probe_failure :
    (try_begin_job { cancel_flag := false, is_converting := true } =
      (Except.error "変換処理が既に実行中です",
        { cancel_flag := false, is_converting := true })) ∧
    (∀ job_result : Except String ℚ,
      (command_guard_flow { cancel_flag := true, is_converting := false }
          (Except.ok 10) job_result).2.is_converting = false ∧
      (try_begin_job (command_guard_flow
          { cancel_flag := true, is_converting := false }
          (Except.ok 10) job_result).2).1 = Except.ok ()) ∧
    (command_guard_flow { cancel_flag := false, is_converting := false }
        (Except.error "ファイルが見つかりません") (Except.ok 10) =
      (Except.error "ファイルが見つかりません",
        { cancel_flag := false, is_converting := true })) ∧
    (try_begin_job (command_guard_flow
        { cancel_flag := false, is_converting := false }
        (Except.error "ファイルが見つかりません") (Except.ok 10)).2 =
      (Except.error "変換処理が既に実行中です",
        { cancel_flag := false, is_converting := true })) := by
  refine ⟨rfl, ?_, rfl, rfl⟩
  intro job_result
  exact ⟨rfl, rfl⟩

/-! ## Claim C9 -/

/-- Claim C9: in every job-initiating command, a failure whose diagnostic
matches the cancellation marker is returned as a non-error result with
`success = false` and that command's fixed cancellation message, and every
other failure is propagated unchanged as an error. -/
theorem cancel_marker_classification (output_path : String)
    (input_duration padding_before padding_after : ℚ) (e : String) :
    (is_cancel_marker e = true →
      convert_video_on_error output_path input_duration e =
        Except.ok
          { success := false, output_path := output_path,
            input_duration := input_duration, output_duration := 0,
            duration_diff := 0, duration_valid := false,
            message := "変換がキャンセルされました" } ∧
      upscale_video_on_error output_path input_duration e =
        Except.ok
          { success := false, output_path := output_path,
            input_duration := input_duration, output_duration := 0,
            duration_diff := 0, duration_valid := false,
            message := "アップスケールがキャンセルされました" } ∧
      compress_video_on_error output_path input_duration e =
        Except.ok
          { success := false, output_path := output_path,
            input_duration := input_duration, output_duration := 0,
            duration_diff := 0, duration_valid := false,
            message := "圧縮がキャンセルされました" } ∧
      process_audio_on_error output_path input_duration padding_before
          padding_after e =
        Except.ok
          { success := false, output_path := output_path,
            input_duration := input_duration, output_duration := 0,
            padding_before := padding_before, padding_after := padding_after,
            message := "処理がキャンセルされました" }) ∧
    (is_cancel_marker e = false →
      convert_video_on_error output_path input_duration e = Except.error e ∧
      upscale_video_on_error output_path input_duration e = Except.error e ∧
      compress_video_on_error output_path input_duration e = Except.error e ∧
      process_audio_on_error output_path input_duration padding_before
        padding_after e = Except.error e) := by
  constructor <;> intro h <;>
    simp [convert_video_on_error, upscale_video_on_error,
      compress_video_on_error, process_audio_on_error, h]

/-- Witness for C9: the run-loop cancellation diagnostic (which contains
the `キャンセル` marker) is normalized, and an unrelated diagnostic is
propagated unchanged. -/
theorem cancel_marker_classification_witness :
    convert_video_on_error "out.mp4" 10 "変換がキャンセルされました" =
      Except.ok
        { success := false, output_path := "out.mp4", input_duration := 10,
          output_duration := 0, duration_diff := 0, duration_valid := false,
          message := "変換がキャンセルされました" } ∧
    convert_video_on_error "out.mp4" 10 "disk full" =
      Except.error "disk full" :=
  ⟨((cancel_marker_classification "out.mp4" 10 0 0
      "変換がキャンセルされました").1 (by decide)).1,
    ((cancel_marker_classification "out.mp4" 10 0 0 "disk full").2
      (by decide)).1⟩

/-! ## Claim C3 -/

/-- Counterexample to C3 as stated: a pipeline run whose phase-1 frame
extraction fails at the `output().await` call itself (the `?` operator at
the `map_err`) returns a failure without the cleanup closure having run, so
this phase-failure exit path leaves the working-directory tree in place. -/
theorem rife_cleanup_counterexample :
    convert_video_rife_model
      { create_input_dir := Except.ok (), create_output_dir := Except.ok (),
        extract_run := Except.error "spawn failure", extract_stderr := "",
        cancel_after_extract := false, extracted_frames := 10,
        rife_run := Except.ok true, rife_stderr := "", output_frames := 20,
        cancel_after_rife := false, encode_run := Except.ok true,
        probe := Except.ok 10 } =
      (Except.error "フレーム抽出エラー: spawn failure", false) := rfl

/-- Claim C3 (amended): on every exit path of `convert_video_rife` other
than a failure of a phase's process launch itself (`output()`/`status()`
returning `Err`, propagated by `?`) or a temp-directory creation failure —
that is, on success, on any phase failure reported through the tool's exit
status or through a zero frame count, on a failed final probe, and on
cancellation — the temporary working-directory tree is removed before the
function returns. -/
theorem rife_cleanup_amended (env : RifeEnv) (b1 b2 b3 : Bool)
    (h0 : env.create_input_dir = Except.ok ())
    (h0b : env.create_output_dir = Except.ok ())
    (h1 : env.extract_run = Except.ok b1)
    (h2 : env.rife_run = Except.ok b2)
    (h3 : env.encode_run = Except.ok b3) :
    (convert_video_rife_model env).2 = true := by
  cases hp : env.probe <;>
    cases b1 <;> cases b2 <;> cases b3 <;>
      simp [convert_video_rife_model, h0, h0b, h1, h2, h3, hp] <;>
        split_ifs <;> simp

/-- Witness for C3 (amended): a fully successful run cleans up. -/
theorem rife_cleanup_amended_witness :
    (convert_video_rife_model
      { create_input_dir := Except.ok (), create_output_dir := Except.ok (),
        extract_run := Except.ok true, extract_stderr := "",
        cancel_after_extract := false, extracted_frames := 10,
        rife_run := Except.ok true, rife_stderr := "", output_frames := 20,
        cancel_after_rife := false, encode_run := Except.ok true,
        probe := Except.ok 10 }).2 = true :=
  rife_cleanup_amended _ true true true rfl rfl rfl rfl rfl

/-! ## Claim C8 -/

/-- Claim C8: a pipeline run that extracts zero frames, or whose
interpolation phase produces zero output frames, returns the corresponding
no-frames-produced failure diagnostic and has run the working-directory
cleanup before returning. -/
theorem rife_zero_frames_spec (env : RifeEnv)
    (h0 : env.create_input_dir = Except.ok ())
    (h0b : env.create_output_dir = Except.ok ())
    (h1 : env.extract_run = Except.ok true)
    (hc : env.cancel_after_extract = false) :
    (env.extracted_frames = 0 →
      convert_video_rife_model env =
        (Except.error "フレームが抽出できませんでした", true)) ∧
    (env.extracted_frames ≠ 0 → env.rife_run = Except.ok true →
      env.output_frames = 0 →
      convert_video_rife_model env =
        (Except.error "RIFEがフレームを生成できませんでした", true)) := by
  constructor
  · intro hz
    simp [convert_video_rife_model, h0, h0b, h1, hc, hz]
  · intro hz h2 hzo
    simp [convert_video_rife_model, h0, h0b, h1, hc, hz, h2, hzo]

/-- Witness for C8: one run with zero extracted frames and one run with
zero interpolated frames. -/
theorem rife_zero_frames_spec_witness :
    convert_video_rife_model
      { create_input_dir := Except.ok (), create_output_dir := Except.ok (),
        extract_run := Except.ok true, extract_stderr := "",
        cancel_after_extract := false, extracted_frames := 0,
        rife_run := Except.ok true, rife_stderr := "", output_frames := 20,
        cancel_after_rife := false, encode_run := Except.ok true,
        probe := Except.ok 10 } =
      (Except.error "フレームが抽出できませんでした", true) ∧
    convert_video_rife_model
      { create_input_dir := Except.ok (), create_output_dir := Except.ok (),
        extract_run := Except.ok true, extract_stderr := "",
        cancel_after_extract := false, extracted_frames := 250,
        rife_run := Except.ok true, rife_stderr := "", output_frames := 0,
        cancel_after_rife := false, encode_run := Except.ok true,
        probe := Except.ok 10 } =
      (Except.error "RIFEがフレームを生成できませんでした", true) :=
  ⟨(rife_zero_frames_spec _ rfl rfl rfl rfl).1 rfl,
    (rife_zero_frames_spec _ rfl rfl rfl rfl).2 (by decide) rfl rfl⟩

/-! ## Claim C5 -/

/-- The percentage is always within `[0, 100]`. -/
lemma progress_percent_bounds (ms : ℕ) (dur : ℚ) :
    0 ≤ progress_percent ms dur ∧ progress_percent ms dur ≤ 100 := by
  unfold progress_percent
  split_ifs with h
  · refine ⟨le_min ?_ (by norm_num), min_le_right _ _⟩
    have h0 : (0 : ℚ) ≤ (ms : ℚ) / 1000000 := by positivity
    have h1 : (0 : ℚ) ≤ (ms : ℚ) / 1000000 / dur := div_nonneg h0 h.le
    nlinarith
  · norm_num

/-- Elapsed time at or beyond the duration clamps the percentage to 100. -/
lemma progress_percent_clamp (ms : ℕ) (dur : ℚ) (h : 0 < dur)
    (h2 : dur ≤ (ms : ℚ) / 1000000) : progress_percent ms dur = 100 := by
  unfold progress_percent
  rw [if_pos h]
  refine min_eq_right ?_
  rw [show (ms : ℚ) / 1000000 / dur * 100 = (ms : ℚ) / 1000000 * 100 / dur by
    ring, le_div_iff h]
  linarith

/-- Every progress event emitted during a run carries the percentage and
elapsed time computed from some value of the `current_time_ms` local. -/
lemma runLoop_emitted_progress (dur : ℚ)
    (wait : Except String (Bool × Option Int)) (probe : Except String ℚ) :
    ∀ (trace : List (Bool × StreamEvent)) (st : LoopState) (ev : ProgressEvent),
      ev ∈ (runLoop dur wait probe st trace).emitted →
      ∃ ms : ℕ, ev.progress = progress_percent ms dur ∧
        ev.time = (ms : ℚ) / 1000000 := by
  intro trace
  induction trace with
  | nil => intro st ev h; simp [runLoop] at h
  | cons head rest ih =>
    intro st ev h
    obtain ⟨b, e⟩ := head
    cases b with
    | true => simp [runLoop] at h
    | false =>
      cases e with
      | outLine text caps =>
        by_cases h1 : contains_substr text "progress=" = true
        · by_cases h2 : contains_substr text "progress=end" = true
          · simp [runLoop, h1, h2] at h
            subst h
            exact ⟨(applyCaps st caps).current_time_ms, rfl, rfl⟩
          · simp [runLoop, h1, h2] at h
            rcases h with h | h
            · subst h
              exact ⟨(applyCaps st caps).current_time_ms, rfl, rfl⟩
            · exact ih _ _ h
        · simp only [runLoop, h1] at h
          simp only [Bool.false_eq_true, if_false] at h
          exact ih _ _ h
      | outEof => simp [runLoop] at h
      | outReadErr => simp [runLoop] at h
      | errLine t => simp only [runLoop, if_false] at h; exact ih _ _ h
      | errEof => simp only [runLoop, if_false] at h; exact ih _ _ h
      | errReadErr => simp only [runLoop, if_false] at h; exact ih _ _ h

/-- Claim C5: every progress event emitted by the supervised read loop has
percentage `min(elapsed / input_duration * 100, 100)` when the input
duration is positive and `0` when it is zero or unknown (non-positive);
the percentage is always a plain rational in `[0, 100]` — no division by
zero, no NaN, no infinity — and elapsed time at or beyond the duration
clamps it to exactly 100. -/
theorem progress_emission_spec (input_duration : ℚ)
    (wait : Except String (Bool × Option Int)) (probe : Except String ℚ)
    (st : LoopState) (trace : List (Bool × StreamEvent)) (ev : ProgressEvent)
    (hev : ev ∈ (runLoop input_duration wait probe st trace).emitted) :
    ev.progress =
      (if 0 < input_duration then min (ev.time / input_duration * 100) 100
       else 0) ∧
    0 ≤ ev.progress ∧ ev.progress ≤ 100 ∧
    (input_duration ≤ 0 → ev.progress = 0) ∧
    (0 < input_duration → input_duration ≤ ev.time → ev.progress = 100) := by
  obtain ⟨ms, hp, ht⟩ :=
    runLoop_emitted_progress input_duration wait probe trace st ev hev
  rw [hp, ht]
  refine ⟨rfl, (progress_percent_bounds ms input_duration).1,
    (progress_percent_bounds ms input_duration).2, ?_, ?_⟩
  · intro hle
    unfold progress_percent
    rw [if_neg (not_lt.mpr hle)]
  · intro hpos hclamp
    exact progress_percent_clamp ms input_duration hpos hclamp

/-- Witness for C5: a 20-second input and one `progress=` line reporting
`out_time_ms=5000000` (5 s elapsed); the event emitted for it is bounded
by 0 and 100. -/
theorem progress_emission_spec_witness :
    0 ≤ (mkProgressEvent
      { current_frame := 0, current_fps := 0, current_time_ms := 5000000,
        current_speed := "" } 20).progress ∧
    (mkProgressEvent
      { current_frame := 0, current_fps := 0, current_time_ms := 5000000,
        current_speed := "" } 20).progress ≤ 100 :=
  have hmem : mkProgressEvent
      { current_frame := 0, current_fps := 0, current_time_ms := 5000000,
        current_speed := "" } 20 ∈
      (runLoop 20 (Except.ok (true, some 0)) (Except.ok 20) initLoopState
        [(false, StreamEvent.outLine "progress=continue"
          { frameCap := none, fpsCap := none, timeCap := some 5000000,
            speedCap := none })]).emitted :=
    List.mem_singleton.mpr rfl
  ⟨(progress_emission_spec 20 (Except.ok (true, some 0)) (Except.ok 20)
      initLoopState _ _ hmem).2.1,
    (progress_emission_spec 20 (Except.ok (true, some 0)) (Except.ok 20)
      initLoopState _ _ hmem).2.2.1⟩

/-! ## Claim C2 -/

/-- Claim C2: for a supervised run whose loop reaches an iteration at which
the cancellation flag reads `true` — no break event (end marker, stdout
end-of-stream or stdout read error) having occurred at the iterations
before it — the run kills the child, returns the Cancelled outcome, never
the Success outcome, and its result does not depend on the exit status, the
probe, or anything the process would have produced after that iteration:
cancellation is observed within that one read/select cycle. -/
theorem minterpolate_cancel_spec (input_duration : ℚ)
    (wait : Except String (Bool × Option Int)) (probe : Except String ℚ) :
    ∀ (pre post : List (Bool × StreamEvent)) (ev : StreamEvent)
      (st : LoopState),
      (∀ p ∈ pre, isBreakEvent p.2 = false) →
      (runLoop input_duration wait probe st
          (pre ++ (true, ev) :: post)).outcome = Outcome.cancelled ∧
      (runLoop input_duration wait probe st
          (pre ++ (true, ev) :: post)).killed = true ∧
      (∀ d, (runLoop input_duration wait probe st
          (pre ++ (true, ev) :: post)).outcome ≠ Outcome.success d) ∧
      (∀ (wait2 : Except String (Bool × Option Int))
        (probe2 : Except String ℚ) (post2 : List (Bool × StreamEvent)),
        runLoop input_duration wait probe st (pre ++ (true, ev) :: post) =
        runLoop input_duration wait2 probe2 st (pre ++ (true, ev) :: post2)) := by
  intro pre
  induction pre with
  | nil =>
    intro post ev st _
    exact ⟨rfl, rfl, fun d h => Outcome.noConfusion h, fun w2 p2 post2 => rfl⟩
  | cons head pre' ih =>
    intro post ev st hnb
    obtain ⟨b, e⟩ := head
    have hbreak : isBreakEvent e = false := hnb (b, e) (List.mem_cons_self _ _)
    have hnb' : ∀ p ∈ pre', isBreakEvent p.2 = false := fun p hp =>
      hnb p (List.mem_cons_of_mem _ hp)
    cases b with
    | true => exact ⟨rfl, rfl, fun d h => Outcome.noConfusion h,
        fun w2 p2 post2 => rfl⟩
    | false =>
      cases e with
      | outLine text caps =>
        by_cases h1 : contains_substr text "progress=" = true
        · have h2 : contains_substr text "progress=end" = false := by
            simp only [isBreakEvent, h1, Bool.true_and] at hbreak
            exact hbreak
          obtain ⟨ha, hk, hns, heq⟩ := ih post ev (applyCaps st caps) hnb'
          refine ⟨?_, ?_, ?_, ?_⟩
          · simp only [List.cons_append, runLoop, h1, h2, Bool.false_eq_true,
              if_false, if_true]
            exact ha
          · simp only [List.cons_append, runLoop, h1, h2, Bool.false_eq_true,
              if_false, if_true]
            exact hk
          · intro d
            simp only [List.cons_append, runLoop, h1, h2, Bool.false_eq_true,
              if_false, if_true]
            exact hns d
          · intro w2 p2 post2
            simp only [List.cons_append, runLoop, h1, h2, Bool.false_eq_true,
              if_false, if_true, List.append_eq]
            rw [heq w2 p2 post2]
        · have h1' : contains_substr text "progress=" = false :=
            Bool.eq_false_iff.mpr h1
          obtain ⟨ha, hk, hns, heq⟩ := ih post ev (applyCaps st caps) hnb'
          refine ⟨?_, ?_, ?_, ?_⟩
          · simp only [List.cons_append, runLoop, h1', Bool.false_eq_true,
              if_false]
            exact ha
          · simp only [List.cons_append, runLoop, h1', Bool.false_eq_true,
              if_false]
            exact hk
          · intro d
            simp only [List.cons_append, runLoop, h1', Bool.false_eq_true,
              if_false]
            exact hns d
          · intro w2 p2 post2
            simp only [List.cons_append, runLoop, h1', Bool.false_eq_true,
              if_false]
            exact heq w2 p2 post2
      | outEof => simp [isBreakEvent] at hbreak
      | outReadErr => simp [isBreakEvent] at hbreak
      | errLine t =>
        obtain ⟨ha, hk, hns, heq⟩ := ih post ev st hnb'
        exact ⟨ha, hk, hns, fun w2 p2 post2 => heq w2 p2 post2⟩
      | errEof =>
        obtain ⟨ha, hk, hns, heq⟩ := ih post ev st hnb'
        exact ⟨ha, hk, hns, fun w2 p2 post2 => heq w2 p2 post2⟩
      | errReadErr =>
        obtain ⟨ha, hk, hns, heq⟩ := ih post ev st hnb'
        exact ⟨ha, hk, hns, fun w2 p2 post2 => heq w2 p2 post2⟩

/-- Witness for C2: a run whose first iteration yields a stderr line with
the flag clear and whose second iteration reads the flag set. -/
theorem minterpolate_cancel_spec_witness :
    (∀ p ∈ [((false : Bool), StreamEvent.errLine "configuration")],
      isBreakEvent p.2 = false) ∧
    (runLoop 10 (Except.ok (true, some 0)) (Except.ok 10) initLoopState
        ([((false : Bool), StreamEvent.errLine "configuration")] ++
          (true, StreamEvent.outLine "frame=5"
            { frameCap := some 5, fpsCap := none, timeCap := none,
              speedCap := none }) :: [])).outcome = Outcome.cancelled :=
  ⟨by decide,
    (minterpolate_cancel_spec 10 (Except.ok (true, some 0)) (Except.ok 10)
      [((false : Bool), StreamEvent.errLine "configuration")] []
      (StreamEvent.outLine "frame=5"
        { frameCap := some 5, fpsCap := none, timeCap := none,
          speedCap := none })
      initLoopState (by decide)).1⟩

end VMagic
